import Mathlib

/-
Shallow embedding of `rpc/oauth/web_oauth.go` (package `oauth` of goutils):
an rpc AuthHandler validating oauth/oidc JWT access tokens.

Modelling conventions:
- Go `error` results become `Except GoError`; a Go `Valid() error` method
  (nil on success) becomes `Option GoError` (`none` = success).
- Go `map[string]T` becomes an association list `List (String × T)` with
  `List.lookup` (Go map literals in this file have distinct keys).
- `context.Context` becomes `GoContext`: `unscoped` stands for the empty
  `context.TODO()` / `context.Background()` context carrying no caller
  deadline or values, `caller i` for a caller-supplied context.
- Ambient wall-clock time (`time.Now()`) is an explicit `now : Nat` argument.
- `interface{}` values returned by the externally supplied entity verifier
  are a type parameter `ε`.
-/

set_option autoImplicit false
set_option linter.unusedVariables false

namespace WebOAuth

/-- gRPC status codes used by the handler (`google.golang.org/grpc/codes`). -/
inductive StatusCode where
  | Unimplemented
  | Internal
deriving DecidableEq, Repr

/-- A Go `error` value: either a plain `errors.New` string or a gRPC
`status.Error` with a code and message. -/
inductive GoError where
  | errorString (msg : String)
  | statusError (code : StatusCode) (msg : String)
deriving DecidableEq, Repr

/-- A Go `context.Context`: `unscoped` is the empty `context.TODO()` (or
`context.Background()`) context with no caller deadline or values; `caller i`
is a context supplied by the caller of the rpc auth process. -/
inductive GoContext where
  | unscoped
  | caller (id : Nat)
deriving DecidableEq, Repr

/-- A JSON value stored in a `jwt.Token` header (`map[string]interface{}`).
Only the shapes relevant to the `kid` lookup are distinguished: a string,
or some non-string JSON value. -/
inductive HeaderValue where
  | str (s : String)
  | num (n : Int)
  | bool (b : Bool)
  | null
deriving DecidableEq, Repr

/-- `crypto/rsa.PublicKey` (modulus and public exponent). -/
structure RSAPublicKey where
  N : Nat
  E : Nat
deriving DecidableEq, Repr

/-- `crypto/rsa.PrivateKey` (its public part and private exponent; the
cryptographic operations themselves are outside the embedding). -/
structure RSAPrivateKey where
  PublicKey : RSAPublicKey
  D : Nat
deriving DecidableEq, Repr

/-- `CredentialsTypeOAuthWeb = rpc.CredentialsType("oauth-web-auth")`. -/
def CredentialsTypeOAuthWeb : String := "oauth-web-auth"

/-- `jwt.RegisteredClaims` of golang-jwt/jwt/v4: the standard registered JWT
claims. Numeric dates are `Option Nat` (`none` = field not set). -/
structure RegisteredClaims where
  Issuer : String := ""
  Subject : String := ""
  Audience : List String := []
  ExpiresAt : Option Nat := none
  NotBefore : Option Nat := none
  IssuedAt : Option Nat := none
  ID : String := ""
deriving DecidableEq, Repr

/-- Loop of golang-jwt/jwt/v4 `verifyAud`: walk the whole audience list —
constant time, no early exit — setting `result` when an entry equals `cmp`
(`subtle.ConstantTimeCompare` on byte slices is exactly string equality) and
accumulating every entry into `stringClaims`. Returns the final flag and
accumulator. -/
def verifyAudLoop (aud : List String) (cmp : String) (result : Bool)
    (stringClaims : String) : Bool × String :=
  match aud with
  | [] => (result, stringClaims)
  | a :: rest =>
    verifyAudLoop rest cmp (if a = cmp then true else result) (stringClaims ++ a)

/-- golang-jwt/jwt/v4 `verifyAud(aud []string, cmp string, required bool)`:
empty list yields `!required`; otherwise walk the whole list, and if every
entry was the empty string (`len(stringClaims) == 0`) yield `!required`
even when an entry matched; otherwise yield the match result. -/
def verifyAud (aud : List String) (cmp : String) (required : Bool) : Bool :=
  if aud.isEmpty then !required
  else
    match verifyAudLoop aud cmp false "" with
    | (result, stringClaims) => if stringClaims = "" then !required else result

/-- golang-jwt/jwt/v4 `(c RegisteredClaims) VerifyAudience(cmp, req)`. -/
def RegisteredClaims.VerifyAudience (c : RegisteredClaims) (cmp : String)
    (req : Bool) : Bool :=
  verifyAud c.Audience cmp req

/-- `rpc.JWTClaims` of goutils: the embedded registered claims, the
credential-type tag (json `rpc_creds_type`) and the provider metadata map
(json `rpc_auth_md`). -/
structure JWTClaims where
  RegisteredClaims : RegisteredClaims := {}
  CredentialsType : String := ""
  AuthMetadata : List (String × String) := []
deriving DecidableEq, Repr

/-- Modelled from the spec: `rpc.JWTClaims.Valid` (package `rpc` of this
repository) is not under `src/`; the spec describes it as the base claim
type's own structural validation — "expiry-not-passed, issued-at sanity"
(§4.1), the source of `TemporalOrStructuralClaimError` (§7). It fails when
the expiry has passed, or when the issued-at time is in the future. This is
the issued-at sanity half. -/
def JWTClaims.validIssuedAt (c : JWTClaims) (now : Nat) : Option GoError :=
  match c.RegisteredClaims.IssuedAt with
  | some iat =>
    if now < iat then some (GoError.errorString "token used before issued")
    else none
  | none => none

/-- Modelled from the spec (continued): expiry-not-passed check, then the
issued-at sanity check. -/
def JWTClaims.Valid (c : JWTClaims) (now : Nat) : Option GoError :=
  match c.RegisteredClaims.ExpiresAt with
  | some exp =>
    if exp < now then some (GoError.errorString "token is expired")
    else c.validIssuedAt now
  | none => c.validIssuedAt now

/-- `webOAuthClaims`: embeds `rpc.JWTClaims` plus the allowed audience
injected by the handler (not part of the wire payload). -/
structure webOAuthClaims where
  JWTClaims : JWTClaims := {}
  allowedAudience : String := ""
deriving DecidableEq, Repr

/-- `(c *webOAuthClaims) Entity()`: return the `email` entry of the
`rpc_auth_md` metadata map, or fail when it is missing. The `sub` claim is
never consulted. -/
def webOAuthClaims.Entity (c : webOAuthClaims) : Except GoError String :=
  match c.JWTClaims.AuthMetadata.lookup "email" with
  | some email => Except.ok email
  | none => Except.error (GoError.errorString "missing email in rpc_auth_md")

/-- `(c *webOAuthClaims) Valid()`: first verify the `aud` claim against the
injected allowed audience (required), failing with "invalid aud"; only then
delegate to the embedded `rpc.JWTClaims.Valid`. -/
def webOAuthClaims.Valid (c : webOAuthClaims) (now : Nat) : Option GoError :=
  if !(c.JWTClaims.RegisteredClaims.VerifyAudience c.allowedAudience true) then
    some (GoError.errorString "invalid aud")
  else
    c.JWTClaims.Valid now

/-- `jwt.Token` (the fields this code touches): the unverified header map,
the claims payload, and the signing method's algorithm name. -/
structure Token where
  Header : List (String × HeaderValue)
  Claims : JWTClaims
  Method : String

/-- `WebOAuthOptions`: the handler's immutable configuration. The key
provider (`jwks.KeyProvider`, repository code outside `src/`) is modelled
from the spec as `lookup(context, keyID) → (verificationKey, error)` (§6);
the entity verifier is the externally supplied callback (`nil` = absent),
returning an opaque value of type `ε`. -/
structure WebOAuthOptions (ε : Type) where
  AllowedAudience : String := ""
  KeyProvider : GoContext → String → Except GoError RSAPublicKey
  EntityVerifier : Option (GoContext → String → Except GoError ε) := none
  Logger : Unit := ()

/-- `webOAuthHandler` embeds its `WebOAuthOptions`. -/
abbrev webOAuthHandler (ε : Type) := WebOAuthOptions ε

/-- `(a *webOAuthHandler) Authenticate(ctx, entity, payload)`: always the
`Unimplemented` status error, never a credential map. -/
def webOAuthHandler.Authenticate {ε : Type} (a : webOAuthHandler ε)
    (ctx : GoContext) (entity payload : String) :
    Except GoError (List (String × String)) :=
  Except.error (GoError.statusError StatusCode.Unimplemented
    "not implemented with webauth")

/-- `(a *webOAuthHandler) VerifyEntity(ctx, entity)`: with no configured
verifier, the `Internal` status error; otherwise the verifier's result on
the caller's context, unmodified. -/
def webOAuthHandler.VerifyEntity {ε : Type} (a : webOAuthHandler ε)
    (ctx : GoContext) (entity : String) : Except GoError ε :=
  match a.EntityVerifier with
  | none =>
    Except.error (GoError.statusError StatusCode.Internal
      "invalid verify entity configuration")
  | some v => v ctx entity

/-- `(a *webOAuthHandler) CreateClaims()`: a fresh `webOAuthClaims` with
only `allowedAudience` set (all other fields Go zero values). -/
def webOAuthHandler.CreateClaims {ε : Type} (a : webOAuthHandler ε) :
    webOAuthClaims :=
  { allowedAudience := a.AllowedAudience }

/-- `(a *webOAuthHandler) TokenVerificationKey(token)`: read `kid` from the
unverified header; if absent or not a string fail with "kid not valid",
otherwise look the key up through the provider under `context.TODO()`. -/
def webOAuthHandler.TokenVerificationKey {ε : Type} (a : webOAuthHandler ε)
    (token : Token) : Except GoError RSAPublicKey :=
  match token.Header.lookup "kid" with
  | some (HeaderValue.str keyID) => a.KeyProvider GoContext.unscoped keyID
  | _ => Except.error (GoError.errorString "kid not valid")

/-- The `kid` header entry when present as a string (the shape
`token.Header["kid"].(string)` accepts), `none` otherwise. -/
def kidHeader (token : Token) : Option String :=
  match token.Header.lookup "kid" with
  | some (HeaderValue.str s) => some s
  | _ => none

/-- The `jwt.Token` literal built by `SignWebAuthAccessToken`: header
`typ=JWT`, `alg=RS256` (`jwt.SigningMethodRS256.Alg()`), `kid=keyID`;
claims with a one-element audience, the given issuer, subject = entity,
issued-at = now, the scheme's credential type, and metadata
`{"email": entity}`; method RS256. -/
def webAuthAccessToken (entity aud iss keyID : String) (now : Nat) : Token :=
  { Header := [("typ", HeaderValue.str "JWT"),
               ("alg", HeaderValue.str "RS256"),
               ("kid", HeaderValue.str keyID)]
    Claims :=
      { RegisteredClaims :=
          { Issuer := iss
            Subject := entity
            Audience := [aud]
            IssuedAt := some now }
        CredentialsType := CredentialsTypeOAuthWeb
        AuthMetadata := [("email", entity)] }
    Method := "RS256" }

/-- `SignWebAuthAccessToken(key, entity, aud, iss, keyID)`: build the token
literal and sign it. `jwt.Token.SignedString` (third-party RSA signing and
compact serialization) is abstracted as the `signedString` argument. -/
def SignWebAuthAccessToken (signedString : Token → RSAPrivateKey → Except GoError String)
    (key : RSAPrivateKey) (entity aud iss keyID : String) (now : Nat) :
    Except GoError String :=
  signedString (webAuthAccessToken entity aud iss keyID now) key

/-- Modelled from the spec: the rpc protocol layer (repository code outside
`src/`) fills the handler-created Claims from the token payload (§2 control
flow); the filled instance keeps the allowed audience seeded by
`CreateClaims`. -/
def webOAuthHandler.decodeClaims {ε : Type} (a : webOAuthHandler ε)
    (t : Token) : webOAuthClaims :=
  { a.CreateClaims with JWTClaims := t.Claims }

/-! ### Helper lemmas -/

/-- Two strings concatenate to the empty string exactly when both are
empty. -/
theorem string_append_eq_empty_iff (s t : String) :
    s ++ t = "" ↔ (s = "" ∧ t = "") := by
  cases s with
  | mk sd =>
    cases t with
    | mk td =>
      constructor
      · intro h
        have hd : sd ++ td = [] := congrArg String.data h
        rcases List.append_eq_nil.mp hd with ⟨h1, h2⟩
        exact ⟨by rw [h1], by rw [h2]⟩
      · rintro ⟨h1, h2⟩
        rw [h1, h2]
        rfl

/-- The final flag of the `verifyAud` loop: set exactly when it started set
or some entry equals `cmp`, for any accumulator. -/
theorem verifyAudLoop_fst_eq_true_iff (cmp : String) :
    ∀ (aud : List String) (res : Bool) (acc : String),
      (verifyAudLoop aud cmp res acc).1 = true ↔ (res = true ∨ cmp ∈ aud) := by
  intro aud
  induction aud with
  | nil => intro res acc; simp [verifyAudLoop]
  | cons a rest ih =>
    intro res acc
    by_cases h : a = cmp
    · subst h
      simp [verifyAudLoop, ih]
    · have h' : ¬cmp = a := fun hc => h hc.symm
      simp [verifyAudLoop, h, ih, List.mem_cons, h']

/-- The final accumulator of the `verifyAud` loop is empty exactly when it
started empty and every walked entry is the empty string. -/
theorem verifyAudLoop_snd_eq_empty_iff (cmp : String) :
    ∀ (aud : List String) (res : Bool) (acc : String),
      (verifyAudLoop aud cmp res acc).2 = "" ↔ (acc = "" ∧ ∀ a ∈ aud, a = "") := by
  intro aud
  induction aud with
  | nil => intro res acc; simp [verifyAudLoop]
  | cons a rest ih =>
    intro res acc
    simp [verifyAudLoop, ih, string_append_eq_empty_iff, and_assoc]

/-- With a required audience, golang-jwt's `verifyAud` succeeds exactly on
list membership together with some non-empty entry (the all-empty-entries
override fails a required check even when the empty string matches). -/
theorem verifyAud_required_eq_true_iff (aud : List String) (cmp : String) :
    verifyAud aud cmp true = true ↔ (cmp ∈ aud ∧ ∃ a ∈ aud, a ≠ "") := by
  by_cases he : aud.isEmpty
  · have haud : aud = [] := List.isEmpty_iff.mp he
    subst haud
    simp [verifyAud]
  · rcases hl : verifyAudLoop aud cmp false "" with ⟨b, s⟩
    have hfst := verifyAudLoop_fst_eq_true_iff cmp aud false ""
    have hsnd := verifyAudLoop_snd_eq_empty_iff cmp aud false ""
    rw [hl] at hfst hsnd
    simp only at hfst hsnd
    have h1 : verifyAud aud cmp true = if s = "" then !true else b := by
      unfold verifyAud
      rw [if_neg he, hl]
    rw [h1]
    by_cases hs : s = ""
    · have hall : ∀ a ∈ aud, a = "" := (hsnd.mp hs).2
      rw [if_pos hs]
      constructor
      · intro h
        simp at h
      · rintro ⟨hmem, a, ha, hane⟩
        exact absurd (hall a ha) hane
    · have hne : ∃ a ∈ aud, a ≠ "" := by
        by_contra hc
        push_neg at hc
        exact hs (hsnd.mpr ⟨trivial, hc⟩)
      rw [if_neg hs, hfst]
      simp [hne]

/-- A missing-or-non-string `kid` header makes the key resolver fail with
"kid not valid", whatever the key provider is. -/
theorem tokenVerificationKey_kid_none {ε : Type} (a : webOAuthHandler ε)
    (token : Token) (h : kidHeader token = none) :
    a.TokenVerificationKey token
      = Except.error (GoError.errorString "kid not valid") := by
  rcases hl : token.Header.lookup "kid" with _ | v
  · simp [webOAuthHandler.TokenVerificationKey, hl]
  · cases v with
    | str s => simp [kidHeader, hl] at h
    | num n => simp [webOAuthHandler.TokenVerificationKey, hl]
    | bool b => simp [webOAuthHandler.TokenVerificationKey, hl]
    | null => simp [webOAuthHandler.TokenVerificationKey, hl]

/-- A present string `kid` header routes the resolution to the key provider,
under the unscoped context, returning whatever it yields. -/
theorem tokenVerificationKey_kid_some {ε : Type} (a : webOAuthHandler ε)
    (token : Token) (keyID : String) (h : kidHeader token = some keyID) :
    a.TokenVerificationKey token = a.KeyProvider GoContext.unscoped keyID := by
  rcases hl : token.Header.lookup "kid" with _ | v
  · simp [kidHeader, hl] at h
  · cases v with
    | str s =>
      have hs : s = keyID := by simpa [kidHeader, hl] using h
      subst hs
      simp [webOAuthHandler.TokenVerificationKey, hl]
    | num n => simp [kidHeader, hl] at h
    | bool b => simp [kidHeader, hl] at h
    | null => simp [kidHeader, hl] at h

/-! ### Sample values used by witnesses -/

/-- Sample claims whose audience list lacks the allowed audience. -/
def mismatchClaims : webOAuthClaims :=
  { JWTClaims := { RegisteredClaims := { Audience := ["svc-b"], IssuedAt := some 3 } }
    allowedAudience := "svc-a" }

/-- Sample claims whose audience list contains the allowed audience. -/
def matchClaims : webOAuthClaims :=
  { JWTClaims := { RegisteredClaims := { Audience := ["svc-b", "svc-a"], IssuedAt := some 3 } }
    allowedAudience := "svc-a" }

/-- Sample claims whose audience list is `[""]` with allowed audience `""`:
the empty string is a member, yet golang-jwt's required-audience override
rejects an all-empty audience list. -/
def emptyAudClaims : webOAuthClaims :=
  { JWTClaims := { RegisteredClaims := { Audience := [""] } }
    allowedAudience := "" }

/-- Sample handler with no entity verifier configured. -/
def noVerifierHandler : webOAuthHandler Unit :=
  { AllowedAudience := "svc-a"
    KeyProvider := fun _ _ => Except.error (GoError.errorString "no key") }

/-- Sample entity verifier echoing the context and entity it receives. -/
def echoVerifier : GoContext → String → Except GoError (GoContext × String) :=
  fun ctx entity => Except.ok (ctx, entity)

/-- Sample handler configured with `echoVerifier` and a key provider that
only knows key id `"k1"` (and records the context in its error). -/
def echoVerifierHandler : webOAuthHandler (GoContext × String) :=
  { AllowedAudience := "svc-a"
    KeyProvider := fun ctx keyID =>
      if ctx = GoContext.unscoped ∧ keyID = "k1" then Except.ok { N := 77, E := 3 }
      else Except.error (GoError.errorString "unknown key")
    EntityVerifier := some echoVerifier }

/-- Sample token whose header carries the string key id `"k1"`. -/
def kidToken : Token :=
  { Header := [("typ", HeaderValue.str "JWT"),
               ("alg", HeaderValue.str "RS256"),
               ("kid", HeaderValue.str "k1")]
    Claims := {}
    Method := "RS256" }

/-- Sample token whose `kid` header entry is a number, not a string. -/
def numericKidToken : Token :=
  { Header := [("typ", HeaderValue.str "JWT"),
               ("kid", HeaderValue.num 42)]
    Claims := {}
    Method := "RS256" }

/-- Sample claims carrying an email metadata attribute and an opaque
provider subject. -/
def emailClaims : webOAuthClaims :=
  { JWTClaims := { RegisteredClaims := { Subject := "auth0|123" }
                   AuthMetadata := [("email", "u@example.com")] }
    allowedAudience := "svc-a" }

/-- Sample claims whose metadata lacks the email attribute. -/
def noEmailClaims : webOAuthClaims :=
  { JWTClaims := { RegisteredClaims := { Subject := "auth0|123" }
                   AuthMetadata := [("name", "u")] }
    allowedAudience := "svc-a" }

/-- Sample claims equal to `emailClaims` except for the subject. -/
def otherSubjectClaims : webOAuthClaims :=
  { JWTClaims := { RegisteredClaims := { Subject := "someone-else" }
                   AuthMetadata := [("email", "u@example.com")] }
    allowedAudience := "svc-a" }

/-- Second sample handler sharing `noVerifierHandler`'s allowed audience. -/
def altHandler : webOAuthHandler Unit :=
  { AllowedAudience := "svc-a"
    KeyProvider := fun _ _ => Except.ok { N := 1, E := 1 } }

/-! ### Claim theorems -/

/-- Counterexample to C1 as stated: with audience list `[""]` and allowed
audience `""` the list does contain the configured value and the base
validation succeeds, yet `Valid()` fails with "invalid aud" — golang-jwt's
`verifyAud` rejects a required audience when every entry is the empty
string, even on a match — so "audience contains the value" is not the gate
after which `Valid()` delegates, and success is not equivalent to
membership plus base validity. -/
theorem valid_audience_gate_counterexample :
    ("" ∈ emptyAudClaims.JWTClaims.RegisteredClaims.Audience)
    ∧ (emptyAudClaims.JWTClaims.Valid 0 = none)
    ∧ (emptyAudClaims.Valid 0 = some (GoError.errorString "invalid aud")) :=
  ⟨by decide, rfl, rfl⟩

/-- Claim C1 as amended: `Valid()` performs the audience check first and the
base structural validation second, where the audience check is golang-jwt's
required-audience verification: it fails with "invalid aud" whenever the
audience list does not contain the configured allowed audience, and also
whenever the list is empty or every entry is the empty string (even if the
allowed audience is `""`); only when that check passes does `Valid()`
delegate to the base `rpc.JWTClaims` validation, and the overall result
succeeds exactly when both checks pass (first failure wins). -/
theorem valid_audience_gate (c : webOAuthClaims) (now : Nat) :
    (c.allowedAudience ∉ c.JWTClaims.RegisteredClaims.Audience →
      c.Valid now = some (GoError.errorString "invalid aud"))
    ∧ ((∀ a ∈ c.JWTClaims.RegisteredClaims.Audience, a = "") →
      c.Valid now = some (GoError.errorString "invalid aud"))
    ∧ (c.allowedAudience ∈ c.JWTClaims.RegisteredClaims.Audience →
      (∃ a ∈ c.JWTClaims.RegisteredClaims.Audience, a ≠ "") →
      c.Valid now = c.JWTClaims.Valid now)
    ∧ (c.Valid now = none ↔
      (c.allowedAudience ∈ c.JWTClaims.RegisteredClaims.Audience
        ∧ (∃ a ∈ c.JWTClaims.RegisteredClaims.Audience, a ≠ "")
        ∧ c.JWTClaims.Valid now = none)) := by
  have hv := verifyAud_required_eq_true_iff
    c.JWTClaims.RegisteredClaims.Audience c.allowedAudience
  by_cases hp : verifyAud c.JWTClaims.RegisteredClaims.Audience
      c.allowedAudience true = true
  · rcases hv.mp hp with ⟨hm, hne⟩
    unfold webOAuthClaims.Valid RegisteredClaims.VerifyAudience
    refine ⟨fun h => absurd hm h, fun h => ?_, fun _ _ => by simp [hp], ?_⟩
    · rcases hne with ⟨a, ha, hane⟩
      exact absurd (h a ha) hane
    · simp [hp, hm, hne]
  · have hf : verifyAud c.JWTClaims.RegisteredClaims.Audience
        c.allowedAudience true = false := by
      cases hb : verifyAud c.JWTClaims.RegisteredClaims.Audience
          c.allowedAudience true with
      | false => rfl
      | true => exact absurd hb hp
    have hnot : ¬(c.allowedAudience ∈ c.JWTClaims.RegisteredClaims.Audience
        ∧ ∃ a ∈ c.JWTClaims.RegisteredClaims.Audience, a ≠ "") :=
      fun hcon => hp (hv.mpr hcon)
    unfold webOAuthClaims.Valid RegisteredClaims.VerifyAudience
    refine ⟨fun _ => by simp [hf], fun _ => by simp [hf],
      fun hm hne => absurd ⟨hm, hne⟩ hnot, ?_⟩
    constructor
    · intro h
      rw [hf] at h
      simp at h
    · rintro ⟨hm, hne, _⟩
      exact absurd ⟨hm, hne⟩ hnot

/-- Witness for C1 (amended): concrete mismatching, all-empty-audience and
matching claims at `now = 5`. -/
theorem valid_audience_gate_witness :
    (mismatchClaims.Valid 5 = some (GoError.errorString "invalid aud"))
    ∧ (emptyAudClaims.Valid 5 = some (GoError.errorString "invalid aud"))
    ∧ (matchClaims.Valid 5 = matchClaims.JWTClaims.Valid 5) :=
  ⟨(valid_audience_gate mismatchClaims 5).1 (by decide),
   (valid_audience_gate emptyAudClaims 5).2.1 (by decide),
   (valid_audience_gate matchClaims 5).2.2.1 (by decide) (by decide)⟩

/-- Claim C5: `VerifyEntity` fails with the internal-configuration status
error whenever no entity verifier is configured; with a configured verifier
it forwards the caller's context and the entity and returns the verifier's
result unmodified. -/
theorem verifyEntity_config_gate {ε : Type} (a : webOAuthHandler ε)
    (ctx : GoContext) (entity : String) :
    (a.EntityVerifier = none →
      a.VerifyEntity ctx entity = Except.error (GoError.statusError
        StatusCode.Internal "invalid verify entity configuration"))
    ∧ (∀ v, a.EntityVerifier = some v →
      a.VerifyEntity ctx entity = v ctx entity) := by
  constructor
  · intro h
    unfold webOAuthHandler.VerifyEntity
    rw [h]
  · intro v h
    unfold webOAuthHandler.VerifyEntity
    rw [h]

/-- Witness for C5: a handler without a verifier fails for entity "alice",
one with the echo verifier forwards to it. -/
theorem verifyEntity_config_gate_witness :
    (noVerifierHandler.VerifyEntity (GoContext.caller 7) "alice"
      = Except.error (GoError.statusError StatusCode.Internal
          "invalid verify entity configuration"))
    ∧ (echoVerifierHandler.VerifyEntity (GoContext.caller 7) "alice"
      = echoVerifier (GoContext.caller 7) "alice") :=
  ⟨(verifyEntity_config_gate noVerifierHandler (GoContext.caller 7) "alice").1 rfl,
   (verifyEntity_config_gate echoVerifierHandler (GoContext.caller 7) "alice").2
     echoVerifier rfl⟩

/-- Claim C7: `Authenticate` always fails with the `Unimplemented` status
error and returns no credential map, for every context, entity and
payload. -/
theorem authenticate_always_unimplemented {ε : Type} (a : webOAuthHandler ε)
    (ctx : GoContext) (entity payload : String) :
    a.Authenticate ctx entity payload
      = Except.error (GoError.statusError StatusCode.Unimplemented
          "not implemented with webauth") := rfl

/-- Claim C2: `TokenVerificationKey` fails with the "kid not valid" error
whenever the unverified header lacks a string `kid` entry — for every key
provider, so no external lookup can be involved — and otherwise forwards
exactly that identifier to the configured key provider and returns its
result (key or failure) unmodified, with no caching or retry of its own. -/
theorem tokenVerificationKey_contract {ε : Type} (a : webOAuthHandler ε)
    (token : Token) :
    (kidHeader token = none →
      ∀ p, webOAuthHandler.TokenVerificationKey { a with KeyProvider := p } token
        = Except.error (GoError.errorString "kid not valid"))
    ∧ (∀ keyID, kidHeader token = some keyID →
      a.TokenVerificationKey token = a.KeyProvider GoContext.unscoped keyID) :=
  ⟨fun h p => tokenVerificationKey_kid_none { a with KeyProvider := p } token h,
   fun keyID h => tokenVerificationKey_kid_some a token keyID h⟩

/-- Witness for C2: the numeric-`kid` token fails under an always-succeeding
provider; the string-`kid` token forwards `"k1"` to the provider. -/
theorem tokenVerificationKey_contract_witness :
    (webOAuthHandler.TokenVerificationKey
        { echoVerifierHandler with
            KeyProvider := fun _ _ => Except.ok { N := 5, E := 7 } }
        numericKidToken
      = Except.error (GoError.errorString "kid not valid"))
    ∧ (echoVerifierHandler.TokenVerificationKey kidToken
      = echoVerifierHandler.KeyProvider GoContext.unscoped "k1") :=
  ⟨(tokenVerificationKey_contract echoVerifierHandler numericKidToken).1 rfl
      (fun _ _ => Except.ok { N := 5, E := 7 }),
   (tokenVerificationKey_contract echoVerifierHandler kidToken).2 "k1" rfl⟩

/-- Claim C3: `Entity()` returns the metadata entry under the fixed "email"
key when present and fails with the missing-attribute error when absent —
for every claims value, validated or not — and its result depends only on
the metadata map, never on the subject field. -/
theorem entity_reads_only_email (c : webOAuthClaims) :
    (∀ email, c.JWTClaims.AuthMetadata.lookup "email" = some email →
      c.Entity = Except.ok email)
    ∧ (c.JWTClaims.AuthMetadata.lookup "email" = none →
      c.Entity = Except.error (GoError.errorString "missing email in rpc_auth_md"))
    ∧ (∀ c' : webOAuthClaims, c.JWTClaims.AuthMetadata = c'.JWTClaims.AuthMetadata →
      c.Entity = c'.Entity) := by
  refine ⟨?_, ?_, ?_⟩
  · intro email h
    unfold webOAuthClaims.Entity
    rw [h]
  · intro h
    unfold webOAuthClaims.Entity
    rw [h]
  · intro c' h
    unfold webOAuthClaims.Entity
    rw [h]

/-- Witness for C3: concrete claims with and without the email attribute,
and a subject change leaving `Entity()` unchanged. -/
theorem entity_reads_only_email_witness :
    (emailClaims.Entity = Except.ok "u@example.com")
    ∧ (noEmailClaims.Entity
      = Except.error (GoError.errorString "missing email in rpc_auth_md"))
    ∧ (emailClaims.Entity = otherSubjectClaims.Entity) :=
  ⟨(entity_reads_only_email emailClaims).1 "u@example.com" rfl,
   (entity_reads_only_email noEmailClaims).2.1 rfl,
   (entity_reads_only_email emailClaims).2.2 otherSubjectClaims rfl⟩

/-- Claim C8: the key resolver calls the key provider with the unscoped
(`context.TODO()`) context, never a caller-supplied one, while
`VerifyEntity` passes the caller's context through to the entity
verifier. -/
theorem keyLookup_unscoped_verifier_caller {ε : Type} (a : webOAuthHandler ε)
    (token : Token) (keyID : String) (ctx : GoContext) (entity : String)
    (v : GoContext → String → Except GoError ε)
    (hkid : kidHeader token = some keyID)
    (hver : a.EntityVerifier = some v) :
    a.TokenVerificationKey token = a.KeyProvider GoContext.unscoped keyID
    ∧ a.VerifyEntity ctx entity = v ctx entity := by
  refine ⟨tokenVerificationKey_kid_some a token keyID hkid, ?_⟩
  unfold webOAuthHandler.VerifyEntity
  rw [hver]

/-- Witness for C8: with the echo verifier and the `"k1"` token, the key
lookup runs under the unscoped context while the verifier receives the
caller's context. -/
theorem keyLookup_unscoped_verifier_caller_witness :
    (echoVerifierHandler.TokenVerificationKey kidToken
      = echoVerifierHandler.KeyProvider GoContext.unscoped "k1")
    ∧ (echoVerifierHandler.VerifyEntity (GoContext.caller 9) "bob"
      = echoVerifier (GoContext.caller 9) "bob") :=
  keyLookup_unscoped_verifier_caller echoVerifierHandler kidToken "k1"
    (GoContext.caller 9) "bob" echoVerifier rfl rfl

/-- Claim C9: `CreateClaims` returns a fresh claims value — every payload
field is the Go zero value — whose `allowedAudience` equals the handler's
configured `AllowedAudience`, and it depends on nothing but that configured
field; no handler operation mutates the configuration (each method of the
source writes no receiver field, so each is a pure function of the immutable
options value). -/
theorem createClaims_fresh {ε : Type} (a : webOAuthHandler ε) :
    (a.CreateClaims = { JWTClaims := {}, allowedAudience := a.AllowedAudience })
    ∧ (a.CreateClaims.JWTClaims = ({} : JWTClaims))
    ∧ (∀ b : webOAuthHandler ε, a.AllowedAudience = b.AllowedAudience →
      a.CreateClaims = b.CreateClaims) := by
  refine ⟨rfl, rfl, ?_⟩
  intro b h
  unfold webOAuthHandler.CreateClaims
  rw [h]

/-- Witness for C9: the sample handler's claims are the zero claims seeded
with `"svc-a"`, and a second handler with the same allowed audience yields
the same claims. -/
theorem createClaims_fresh_witness :
    (noVerifierHandler.CreateClaims
      = { JWTClaims := {}, allowedAudience := "svc-a" })
    ∧ (noVerifierHandler.CreateClaims = altHandler.CreateClaims) :=
  ⟨(createClaims_fresh noVerifierHandler).1,
   (createClaims_fresh noVerifierHandler).2.2 altHandler rfl⟩

/-- Handler for the end-to-end scenario: allowed audience `"svc-a"`, and a
key provider that knows exactly the key id `"k1"`. -/
def svcAHandler (k : RSAPublicKey) : webOAuthHandler Unit :=
  { AllowedAudience := "svc-a"
    KeyProvider := fun _ keyID =>
      if keyID = "k1" then Except.ok k
      else Except.error (GoError.errorString "unknown key")
    EntityVerifier := none }

/-- Claim C6: for every signing key, entity, audience, issuer and key id,
the issuer builds a token with header `typ=JWT`, the fixed RS256 algorithm
tag and the given key id, payload audience the single-element list of the
given audience, the given issuer, subject equal to the entity, issued-at
the current time, the scheme's credential-type tag, and the entity under
the same "email" metadata key `Entity()` reads; it then signs that token
with the given private key, returning the serializer's result. -/
theorem signWebAuthAccessToken_shape
    (signedString : Token → RSAPrivateKey → Except GoError String)
    (key : RSAPrivateKey) (entity aud iss keyID : String) (now : Nat) :
    let t := webAuthAccessToken entity aud iss keyID now
    (t.Header.lookup "typ" = some (HeaderValue.str "JWT"))
    ∧ (t.Header.lookup "alg" = some (HeaderValue.str "RS256"))
    ∧ (t.Header.lookup "kid" = some (HeaderValue.str keyID))
    ∧ (t.Claims.RegisteredClaims.Audience = [aud])
    ∧ (t.Claims.RegisteredClaims.Issuer = iss)
    ∧ (t.Claims.RegisteredClaims.Subject = entity)
    ∧ (t.Claims.RegisteredClaims.IssuedAt = some now)
    ∧ (t.Claims.CredentialsType = CredentialsTypeOAuthWeb)
    ∧ (t.Claims.AuthMetadata.lookup "email" = some entity)
    ∧ (t.Method = "RS256")
    ∧ (SignWebAuthAccessToken signedString key entity aud iss keyID now
      = signedString t key) :=
  ⟨rfl, rfl, rfl, rfl, rfl, rfl, rfl, rfl, rfl, rfl, rfl⟩

/-- Claim C10 (implicit): every issued token carries the same string as its
subject and as its "email" metadata attribute — both are the entity
argument — so the issuer cannot make them differ, and `Entity()` on claims
decoded from an issued token returns exactly the entity passed at
issuance. -/
theorem issued_subject_eq_email {ε : Type} (a : webOAuthHandler ε)
    (entity aud iss keyID : String) (now : Nat) :
    ((webAuthAccessToken entity aud iss keyID now).Claims.RegisteredClaims.Subject
      = entity)
    ∧ ((webAuthAccessToken entity aud iss keyID now).Claims.AuthMetadata.lookup "email"
      = some entity)
    ∧ ((a.decodeClaims (webAuthAccessToken entity aud iss keyID now)).Entity
      = Except.ok entity) :=
  ⟨rfl, rfl, rfl⟩

/-- Counterexample to C4 as stated: the issuer cannot produce a token whose
subject is `"u123"` while its email metadata is `"u@example.com"` — fixing
the subject to `"u123"` fixes the entity argument, hence the email
attribute, to `"u123"`, and `Entity()` on the decoded claims then yields
`"u123"`, not `"u@example.com"`. -/
theorem endToEnd_roundTrip_counterexample :
    ((webAuthAccessToken "u123" "svc-a" "idp" "k1" 0).Claims.RegisteredClaims.Subject
      = "u123")
    ∧ ((webAuthAccessToken "u123" "svc-a" "idp" "k1" 0).Claims.AuthMetadata.lookup "email"
      = some "u123")
    ∧ ¬((webAuthAccessToken "u123" "svc-a" "idp" "k1" 0).Claims.AuthMetadata.lookup "email"
      = some "u@example.com")
    ∧ ¬(((svcAHandler { N := 11, E := 3 }).decodeClaims
        (webAuthAccessToken "u123" "svc-a" "idp" "k1" 0)).Entity
      = Except.ok "u@example.com") := by
  refine ⟨rfl, rfl, by decide, ?_⟩
  intro h
  exact absurd (Except.ok.inj h) (by decide)

/-- Claim C4 as amended: a token issued with entity `"u@example.com"` (the
issuer sets both the subject and the email metadata to the entity),
audience `"svc-a"`, issuer `"idp"`, key id `"k1"`, verified by a handler
with allowed audience `"svc-a"` and a key provider returning the matching
key for `"k1"`: key resolution returns that key, `Valid()` succeeds at the
issuance time, and `Entity()` yields `"u@example.com"`. -/
theorem endToEnd_roundTrip (k : RSAPublicKey) (now : Nat) :
    ((svcAHandler k).TokenVerificationKey
        (webAuthAccessToken "u@example.com" "svc-a" "idp" "k1" now)
      = Except.ok k)
    ∧ (((svcAHandler k).decodeClaims
        (webAuthAccessToken "u@example.com" "svc-a" "idp" "k1" now)).Valid now
      = none)
    ∧ (((svcAHandler k).decodeClaims
        (webAuthAccessToken "u@example.com" "svc-a" "idp" "k1" now)).Entity
      = Except.ok "u@example.com") := by
  refine ⟨?_, ?_, rfl⟩
  · rfl
  · simp [svcAHandler, webOAuthHandler.decodeClaims, webOAuthHandler.CreateClaims,
      webAuthAccessToken, webOAuthClaims.Valid, RegisteredClaims.VerifyAudience,
      verifyAud, verifyAudLoop, JWTClaims.Valid, JWTClaims.validIssuedAt]

end WebOAuth
